import Mathlib

/-!
A shallow embedding of the tinyvk renderer core (src/src/renderer/renderer.cpp,
src/src/renderer/context.cpp, src/src/core/application.cpp,
src/src/ui/render_widget.cpp) in Lean 4, together with theorems settling the
specification claims about it.

Vulkan handles are modelled as natural numbers allocated from a fresh-handle
counter; external driver results (acquire, present, command-buffer begin) are
inputs to the transition functions; each operation also returns the list of
observable events (semaphore/fence creation and destruction, command-buffer
resets, draw recording) it performs, in program order.
-/

namespace tvk

/-- VkResult values relevant to the swapchain paths of the renderer. -/
inductive VkResult where
  | success
  | suboptimalKhr
  | errorOutOfDateKhr
  | errorOther
deriving DecidableEq, Repr

/-- VkPresentModeKHR values handled by ChooseSwapPresentMode. -/
inductive PresentMode where
  | immediateKhr
  | mailboxKhr
  | fifoKhr
  | fifoRelaxedKhr
deriving DecidableEq, Repr

/-- VkFormat values relevant to depth-format probing. -/
inductive Format where
  | d32Sfloat
  | d32SfloatS8Uint
  | d24UnormS8Uint
  | b8g8r8a8Srgb
  | otherFormat
deriving DecidableEq, Repr

/-- VkImageTiling. -/
inductive Tiling where
  | linear
  | optimal
deriving DecidableEq, Repr

/-- VkFormatProperties: feature bitmasks per tiling, as reported by
vkGetPhysicalDeviceFormatProperties. -/
structure FormatProperties where
  linearTilingFeatures : Nat
  optimalTilingFeatures : Nat
deriving DecidableEq, Repr

/-- VK_FORMAT_FEATURE_DEPTH_STENCIL_ATTACHMENT_BIT. -/
def depthStencilAttachmentBit : Nat := 512

/-- Renderer::ChooseSwapPresentMode (renderer.cpp:624-638): when vsync is
disabled, scan for MAILBOX, then scan for IMMEDIATE; otherwise (and as the
fallback) FIFO. -/
def ChooseSwapPresentMode (vsync : Bool) (availablePresentModes : List PresentMode) :
    PresentMode :=
  if !vsync then
    match availablePresentModes.find? (fun mode => mode == PresentMode.mailboxKhr) with
    | some mode => mode
    | none =>
      match availablePresentModes.find? (fun mode => mode == PresentMode.immediateKhr) with
      | some mode => mode
      | none => PresentMode.fifoKhr
  else PresentMode.fifoKhr

/-- The body of the candidate loop of Renderer::FindSupportedFormat
(renderer.cpp:664-674): first candidate whose feature bits for the requested
tiling contain all requested features. -/
def findSupportedLoop (props : Format → FormatProperties) (tiling : Tiling)
    (features : Nat) : List Format → Option Format
  | [] => none
  | format :: rest =>
    if tiling = Tiling.linear ∧ (props format).linearTilingFeatures &&& features = features then
      some format
    else if tiling = Tiling.optimal ∧ (props format).optimalTilingFeatures &&& features = features then
      some format
    else findSupportedLoop props tiling features rest

/-- Renderer::FindSupportedFormat (renderer.cpp:664-678): scan the candidates;
on exhaustion log an error and return candidates[0]. -/
def FindSupportedFormat (props : Format → FormatProperties) (candidates : List Format)
    (tiling : Tiling) (features : Nat) : Option Format :=
  match findSupportedLoop props tiling features candidates with
  | some format => some format
  | none => candidates.head?

/-- Renderer::FindDepthFormat (renderer.cpp:656-662): probe
D32_SFLOAT, then D32_SFLOAT_S8_UINT, then D24_UNORM_S8_UINT against
optimal-tiling depth-stencil-attachment support. -/
def FindDepthFormat (props : Format → FormatProperties) : Option Format :=
  FindSupportedFormat props
    [Format.d32Sfloat, Format.d32SfloatS8Uint, Format.d24UnormS8Uint]
    Tiling.optimal depthStencilAttachmentBit

/-- Whether a format reports optimal-tiling depth-stencil-attachment support. -/
def depthSupported (props : Format → FormatProperties) (format : Format) : Bool :=
  (props format).optimalTilingFeatures &&& depthStencilAttachmentBit ==
    depthStencilAttachmentBit

/-- The loop of VulkanContext::FindMemoryType (context.cpp:525-534), carrying
the running index: first i with bit i set in typeFilter and all requested
property flags present in memoryTypes[i]. -/
def findMemoryTypeLoop (typeFilter properties : Nat) :
    List Nat → Nat → Option Nat
  | [], _ => none
  | flags :: rest, i =>
    if typeFilter &&& (1 <<< i) ≠ 0 ∧ flags &&& properties = properties then
      some i
    else findMemoryTypeLoop typeFilter properties rest (i + 1)

/-- VulkanContext::FindMemoryType (context.cpp:525-534). `memoryTypes` is the
list of per-type property-flag masks. Returns the chosen index together with
whether the failure path (log error, return 0) was taken. -/
def FindMemoryType (memoryTypes : List Nat) (typeFilter properties : Nat) :
    Nat × Bool :=
  match findMemoryTypeLoop typeFilter properties memoryTypes 0 with
  | some i => (i, false)
  | none => (0, true)

/-- One element of m_Frames (renderer.h): the per-in-flight-frame slot holding
a command buffer, an in-flight fence, and the semaphores borrowed for the
current submission. `fenceSignaled` models the fence's signal state. -/
structure FrameSlot where
  inFlightFence : Nat
  fenceSignaled : Bool
  commandBuffer : Nat
  imageAvailableSemaphore : Option Nat
  renderFinishedSemaphore : Option Nat
deriving DecidableEq, Repr

instance : Inhabited FrameSlot :=
  ⟨⟨0, false, 0, none, none⟩⟩

/-- Observable operations the renderer performs on driver objects, recorded in
program order by each transition function. -/
inductive REvent where
  | createFence (fence : Nat)
  | destroyFence (fence : Nat)
  | resetFence (fence : Nat)
  | waitFence (fence : Nat)
  | createSemaphore (sem : Nat)
  | destroySemaphore (sem : Nat)
  | resetCommandBuffer (cb : Nat)
  | beginCommandBuffer (cb : Nat)
  | submitCommandBuffer (cb : Nat)
  | acquireImage (sem : Nat)
  | presentImage (image : Nat)
  | destroySwapchainBundle
  | createSwapchainBundle
deriving DecidableEq, Repr

/-- The renderer's mutable state (the m_ fields of Renderer in renderer.h).
Handles are naturals allocated from `nextHandle`; `none` is VK_NULL_HANDLE. -/
structure RendererState where
  maxFramesInFlight : Nat
  currentFrame : Nat
  currentImageIndex : Nat
  currentSemaphoreIndex : Nat
  framebufferResized : Bool
  frames : List FrameSlot
  imageAvailableSemaphores : List Nat
  renderFinishedSemaphores : List Nat
  swapchainImageCount : Nat
  swapchain : Option Nat
  swapchainImageViews : List Nat
  depthImage : Option Nat
  depthImageMemory : Option Nat
  depthImageView : Option Nat
  renderPass : Option Nat
  framebuffers : List Nat
  nextHandle : Nat
deriving DecidableEq, Repr

/-- Renderer::CleanupSwapchain (renderer.cpp:528-565): destroy the depth
view/image/memory, all framebuffers, the render pass, all swapchain image
views, and the swapchain, in that order. -/
def CleanupSwapchain (s : RendererState) : RendererState × List REvent :=
  ({ s with depthImageView := none, depthImage := none, depthImageMemory := none,
            framebuffers := [], renderPass := none, swapchainImageViews := [],
            swapchain := none },
   [REvent.destroySwapchainBundle])

/-- CreateSwapchain, CreateImageViews, CreateDepthResources, CreateRenderPass
and CreateFramebuffers (renderer.cpp:257-526) as one allocation step:
`imageCount` is the image count the driver negotiates; every handle created is
fresh. -/
def CreateSwapchainResources (s : RendererState) (imageCount : Nat) :
    RendererState × List REvent :=
  let swapchainHandle := s.nextHandle
  let viewBase := s.nextHandle + 1
  let views := (List.range imageCount).map (fun i => viewBase + i)
  let depthImg := viewBase + imageCount
  let fbBase := depthImg + 4
  let fbs := (List.range imageCount).map (fun i => fbBase + i)
  ({ s with swapchain := some swapchainHandle,
            swapchainImageCount := imageCount,
            swapchainImageViews := views,
            depthImage := some depthImg,
            depthImageMemory := some (depthImg + 1),
            depthImageView := some (depthImg + 2),
            renderPass := some (depthImg + 3),
            framebuffers := fbs,
            nextHandle := fbBase + imageCount },
   [REvent.createSwapchainBundle])

/-- The pool-creation loop shared by CreateSyncObjects (renderer.cpp:462-467)
and RecreateSwapchain (renderer.cpp:607-610): per iteration one image-available
then one render-finished semaphore. Returns the two pools, the next fresh
handle, and the creation events. -/
def createSemaphorePools (next : Nat) : Nat → List Nat × List Nat × Nat × List REvent
  | 0 => ([], [], next, [])
  | n + 1 =>
    let ia := next
    let rf := next + 1
    let rest := createSemaphorePools (next + 2) n
    (ia :: rest.1, rf :: rest.2.1, rest.2.2.1,
     REvent.createSemaphore ia :: REvent.createSemaphore rf :: rest.2.2.2)

/-- The events of destroying both semaphore pools (renderer.cpp:85-97 and
580-592): every image-available semaphore, then every render-finished one. -/
def destroyPoolEvents (s : RendererState) : List REvent :=
  s.imageAvailableSemaphores.map REvent.destroySemaphore ++
  s.renderFinishedSemaphores.map REvent.destroySemaphore

/-- Renderer::RecreateSwapchain (renderer.cpp:567-612). The spin waiting out a
minimized window and vkDeviceWaitIdle block externally and change no modelled
state. `newImageCount` is the image count negotiated for the new swapchain. -/
def RecreateSwapchain (s : RendererState) (newImageCount : Nat) :
    RendererState × List REvent :=
  let c := CleanupSwapchain s
  let destroyEvents := destroyPoolEvents c.1
  let s2 := { c.1 with imageAvailableSemaphores := [], renderFinishedSemaphores := [] }
  let r := CreateSwapchainResources s2 newImageCount
  let pools := createSemaphorePools r.1.nextHandle (r.1.swapchainImageCount + 1)
  ({ r.1 with imageAvailableSemaphores := pools.1,
              renderFinishedSemaphores := pools.2.1,
              nextHandle := pools.2.2.1,
              currentSemaphoreIndex := 0 },
   c.2 ++ destroyEvents ++ r.2 ++ pools.2.2.2)

/-- Renderer::CreateCommandBuffers (renderer.cpp:421-437): size m_Frames to
maxFramesInFlight and allocate one primary command buffer per slot. -/
def CreateCommandBuffers (s : RendererState) : RendererState × List REvent :=
  let slots := (List.range s.maxFramesInFlight).map (fun i =>
    ({ inFlightFence := 0, fenceSignaled := false,
       commandBuffer := s.nextHandle + i,
       imageAvailableSemaphore := none, renderFinishedSemaphore := none } : FrameSlot))
  ({ s with frames := slots, nextHandle := s.nextHandle + s.maxFramesInFlight }, [])

/-- The fence-creation loop of CreateSyncObjects (renderer.cpp:448-454): each
slot gets a fresh fence created signaled, and its semaphore fields nulled. -/
def assignFences (fenceBase : Nat) : List FrameSlot → Nat → List FrameSlot × List REvent
  | [], _ => ([], [])
  | slot :: rest, i =>
    let r := assignFences fenceBase rest (i + 1)
    ({ slot with inFlightFence := fenceBase + i, fenceSignaled := true,
                 imageAvailableSemaphore := none, renderFinishedSemaphore := none } :: r.1,
     REvent.createFence (fenceBase + i) :: r.2)

/-- Renderer::CreateSyncObjects (renderer.cpp:439-471): per-frame signaled
fences, then both semaphore pools sized swapchain image count + 1, and the
rotating semaphore index starting at 0. -/
def CreateSyncObjects (s : RendererState) : RendererState × List REvent :=
  let fr := assignFences s.nextHandle s.frames 0
  let pools := createSemaphorePools (s.nextHandle + s.frames.length)
    (s.swapchainImageCount + 1)
  ({ s with frames := fr.1,
            imageAvailableSemaphores := pools.1,
            renderFinishedSemaphores := pools.2.1,
            nextHandle := pools.2.2.1,
            currentSemaphoreIndex := 0 },
   fr.2 ++ pools.2.2.2)

/-- The renderer state before Init creates any object. -/
def initialRendererState (maxFramesInFlight : Nat) : RendererState :=
  { maxFramesInFlight := maxFramesInFlight, currentFrame := 0, currentImageIndex := 0,
    currentSemaphoreIndex := 0, framebufferResized := false, frames := [],
    imageAvailableSemaphores := [], renderFinishedSemaphores := [],
    swapchainImageCount := 0, swapchain := none, swapchainImageViews := [],
    depthImage := none, depthImageMemory := none, depthImageView := none,
    renderPass := none, framebuffers := [], nextHandle := 1 }

/-- The resource-creating part of Renderer::Init (renderer.cpp:23-75):
CreateSwapchain through CreateFramebuffers, then CreateCommandBuffers, then
CreateSyncObjects. `imageCount` is the driver-negotiated image count. -/
def InitRenderer (maxFramesInFlight imageCount : Nat) : RendererState × List REvent :=
  let r := CreateSwapchainResources (initialRendererState maxFramesInFlight) imageCount
  let c := CreateCommandBuffers r.1
  let sy := CreateSyncObjects c.1
  (sy.1, r.2 ++ c.2 ++ sy.2)

/-- Renderer::BeginFrame (renderer.cpp:110-192). `acquireResult` and
`acquiredImage` model the vkAcquireNextImageKHR reply (the out-parameter is
taken as unchanged when the driver reports OUT_OF_DATE); `beginSucceeds`
models vkBeginCommandBuffer; `recreateImageCount` is the image count
negotiated if an OUT_OF_DATE acquire forces RecreateSwapchain. Returns the
bool BeginFrame returns, the new state, and the events. -/
def BeginFrame (s : RendererState) (acquireResult : VkResult) (acquiredImage : Nat)
    (beginSucceeds : Bool) (recreateImageCount : Nat) :
    Bool × RendererState × List REvent :=
  let slot := s.frames.getD s.currentFrame default
  let slotWaited := { slot with fenceSignaled := true }
  let s1 := { s with frames := s.frames.set s.currentFrame slotWaited }
  let acquireSemaphore := s1.imageAvailableSemaphores.getD s1.currentSemaphoreIndex 0
  let acquireEvents := [REvent.waitFence slot.inFlightFence,
                        REvent.acquireImage acquireSemaphore]
  if acquireResult = VkResult.errorOutOfDateKhr then
    let r := RecreateSwapchain s1 recreateImageCount
    (false, r.1, acquireEvents ++ r.2)
  else if acquireResult ≠ VkResult.success ∧ acquireResult ≠ VkResult.suboptimalKhr then
    (false, s1, acquireEvents)
  else
    let slotArmed := { slotWaited with
      imageAvailableSemaphore := some acquireSemaphore,
      renderFinishedSemaphore :=
        some (s1.renderFinishedSemaphores.getD s1.currentSemaphoreIndex 0),
      fenceSignaled := false }
    let s2 := { s1 with
      currentImageIndex := acquiredImage,
      frames := s1.frames.set s1.currentFrame slotArmed,
      currentSemaphoreIndex :=
        (s1.currentSemaphoreIndex + 1) % s1.imageAvailableSemaphores.length }
    let recordEvents := acquireEvents ++
      [REvent.resetFence slot.inFlightFence, REvent.resetCommandBuffer slot.commandBuffer]
    if beginSucceeds then
      (true, s2, recordEvents ++ [REvent.beginCommandBuffer slot.commandBuffer])
    else
      (false, s2, recordEvents)

/-- Renderer::EndFrame (renderer.cpp:194-247). `endSucceeds` models
vkEndCommandBuffer, `submitSucceeds` vkQueueSubmit, `presentResult`
vkQueuePresentKHR; `recreateImageCount` is the image count negotiated if the
present path forces RecreateSwapchain. Failures past recording only log. -/
def EndFrame (s : RendererState) (endSucceeds submitSucceeds : Bool)
    (presentResult : VkResult) (recreateImageCount : Nat) :
    RendererState × List REvent :=
  let slot := s.frames.getD s.currentFrame default
  if !endSucceeds then (s, [])
  else
    let submitEvents := [REvent.submitCommandBuffer slot.commandBuffer]
    if !submitSucceeds then (s, submitEvents)
    else
      let presentEvents := submitEvents ++ [REvent.presentImage s.currentImageIndex]
      let afterPresent :=
        if presentResult = VkResult.errorOutOfDateKhr ∨
            presentResult = VkResult.suboptimalKhr ∨ s.framebufferResized then
          let r := RecreateSwapchain { s with framebufferResized := false } recreateImageCount
          (r.1, presentEvents ++ r.2)
        else (s, presentEvents)
      ({ afterPresent.1 with
          currentFrame :=
            (afterPresent.1.currentFrame + 1) % afterPresent.1.maxFramesInFlight },
       afterPresent.2)

/-- Renderer::OnResize (renderer.cpp:249-251): only flags the resize. -/
def OnResize (s : RendererState) : RendererState :=
  { s with framebufferResized := true }

/-- Renderer::Cleanup (renderer.cpp:77-108): CleanupSwapchain, destroy both
semaphore pools, destroy every frame slot's fence, clear the slots. -/
def RendererCleanup (s : RendererState) : RendererState × List REvent :=
  let c := CleanupSwapchain s
  let semEvents := destroyPoolEvents c.1
  let fenceEvents := c.1.frames.map (fun slot => REvent.destroyFence slot.inFlightFence)
  ({ c.1 with imageAvailableSemaphores := [], renderFinishedSemaphores := [],
              frames := [] },
   c.2 ++ semEvents ++ fenceEvents)

/-- AppMode (application.h): which phases the main loop runs. -/
inductive AppMode where
  | GUI
  | Game
  | Hybrid
deriving DecidableEq, Repr

/-- The hooks and UI-layer calls one main-loop iteration can make between a
successful BeginFrame and EndFrame. `imguiEnd` is the call recording the UI
draw data into the frame's command buffer. -/
inductive AppEvent where
  | onPreRender
  | onRenderHook
  | imguiBegin
  | beginDockspace
  | onUI
  | endDockspace
  | widgetRender
  | imguiEnd
  | onPostRender
  | endFrame
deriving DecidableEq, Repr

/-- The render section of one App::MainLoop iteration (application.cpp:153-188):
the phases recorded when BeginFrame returned `beginOk`. Game and Hybrid run the
direct-render hook on the frame's command buffer; GUI and Hybrid run the ImGui
phase, whose End call records the UI draw calls into the same buffer. -/
def MainLoopRenderPhase (mode : AppMode) (enableDockspace beginOk : Bool) :
    List AppEvent :=
  if beginOk then
    [AppEvent.onPreRender] ++
    (if mode = AppMode.Game ∨ mode = AppMode.Hybrid then [AppEvent.onRenderHook]
     else []) ++
    (if mode = AppMode.GUI ∨ mode = AppMode.Hybrid then
      [AppEvent.imguiBegin] ++
      (if enableDockspace then [AppEvent.beginDockspace] else []) ++
      [AppEvent.onUI] ++
      (if enableDockspace then [AppEvent.endDockspace] else []) ++
      [AppEvent.widgetRender, AppEvent.imguiEnd]
     else []) ++
    [AppEvent.onPostRender, AppEvent.endFrame]
  else []

/-- RenderWidget state (render_widget.h): panel size, the lazy-resize flag, and
the size-dependent render-target resources modelled as one generation handle
(image + view + depth + framebuffer are created and destroyed together). -/
structure WidgetState where
  width : Nat
  height : Nat
  needsResize : Bool
  initialized : Bool
  enabled : Bool
  renderTarget : Option Nat
  imguiTexture : Option Nat
  nextHandle : Nat
deriving DecidableEq, Repr

/-- Observable RenderWidget operations, in program order. -/
inductive WEvent where
  | onRenderResize (width height : Nat)
  | destroyRenderTarget (handle : Nat)
  | createRenderTarget (handle : Nat)
  | onRenderUpdate
  | onRenderFrame
  | submitAndWait
  | drawImage
deriving DecidableEq, Repr

/-- RenderWidget::SetSize (render_widget.cpp:133-140): on a changed size,
record the new extent, raise the needs-resize flag and call the resize hook;
nothing else. -/
def WidgetSetSize (s : WidgetState) (width height : Nat) : WidgetState × List WEvent :=
  if s.width ≠ width ∨ s.height ≠ height then
    ({ s with width := width, height := height, needsResize := true },
     [WEvent.onRenderResize width height])
  else (s, [])

/-- RenderWidget::CleanupSizeDependentResources (render_widget.cpp:395-439):
remove the ImGui texture and destroy the render-target resources. -/
def CleanupSizeDependentResources (s : WidgetState) : WidgetState × List WEvent :=
  match s.renderTarget with
  | some h =>
    ({ s with renderTarget := none, imguiTexture := none },
     [WEvent.destroyRenderTarget h])
  | none => ({ s with imguiTexture := none }, [])

/-- RenderWidget::CreateSizeDependentResources (render_widget.cpp:273-393):
create the render-target resources at the current size and register the
ImGui texture. -/
def CreateSizeDependentResources (s : WidgetState) : WidgetState × List WEvent :=
  ({ s with renderTarget := some s.nextHandle,
            imguiTexture := some (s.nextHandle + 1),
            nextHandle := s.nextHandle + 2 },
   [WEvent.createRenderTarget s.nextHandle])

/-- RenderWidget::RecreateRenderTarget (render_widget.cpp:465-472): wait idle,
destroy the size-dependent resources, create them anew. -/
def RecreateRenderTarget (s : WidgetState) : WidgetState × List WEvent :=
  let c := CleanupSizeDependentResources s
  let r := CreateSizeDependentResources c.1
  (r.1, c.2 ++ r.2)

/-- RenderWidget::Render (render_widget.cpp:60-91): if flagged, recreate the
render target first and clear the flag; then the update hook and, when the
command buffer begins successfully, the frame hook and synchronous submit. -/
def WidgetRender (s : WidgetState) (beginSucceeds : Bool) : WidgetState × List WEvent :=
  if !s.initialized || !s.enabled then (s, [])
  else
    let resized :=
      if s.needsResize then
        let r := RecreateRenderTarget s
        ({ r.1 with needsResize := false }, r.2)
      else (s, [])
    let frameEvents :=
      if beginSucceeds then [WEvent.onRenderFrame, WEvent.submitAndWait] else []
    (resized.1, resized.2 ++ [WEvent.onRenderUpdate] ++ frameEvents)

/-- RenderWidget::RenderImage (render_widget.cpp:93-112). `contentRegion` is
the truncated UI content-region size in pixels (the source reads floats from
the UI library and casts to u32). A detected size change goes through SetSize
and returns without drawing; an unchanged size draws the image. -/
def WidgetRenderImage (s : WidgetState) (contentRegion : Nat × Nat) :
    WidgetState × List WEvent :=
  if s.imguiTexture = none then (s, [])
  else if contentRegion.1 > 0 ∧ contentRegion.2 > 0 then
    let newWidth := max contentRegion.1 32
    let newHeight := max contentRegion.2 32
    if newWidth ≠ s.width ∨ newHeight ≠ s.height then
      WidgetSetSize s newWidth newHeight
    else
      (s, [WEvent.drawImage])
  else (s, [])

/-- A widget state with the resize flag raised and rendering enabled: the
configuration RenderWidget::Render finds after a detected size change. -/
def flaggedWidget (s : WidgetState) : WidgetState :=
  { s with needsResize := true, initialized := true, enabled := true }

/-- A format-properties table on which only D24_UNORM_S8_UINT reports
optimal-tiling depth-stencil-attachment support. -/
def onlyD24Props : Format → FormatProperties :=
  fun format =>
    if format = Format.d24UnormS8Uint then ⟨0, depthStencilAttachmentBit⟩ else ⟨0, 0⟩

/-- Index `i` satisfies the scan condition of FindMemoryType: its bit is set in
the type filter and its property flags contain all requested flags. -/
def memoryTypeMatches (memoryTypes : List Nat) (typeFilter properties i : Nat) : Prop :=
  i < memoryTypes.length ∧ typeFilter &&& (1 <<< i) ≠ 0 ∧
    memoryTypes.getD i 0 &&& properties = properties

instance (memoryTypes : List Nat) (typeFilter properties i : Nat) :
    Decidable (memoryTypeMatches memoryTypes typeFilter properties i) := by
  unfold memoryTypeMatches
  infer_instance

/-- Whether an event creates, destroys or resets a frame slot's fence, or
resets, begins or submits a frame slot's command buffer. -/
def frameSlotObjectOp (e : REvent) : Bool :=
  match e with
  | REvent.createFence _ => true
  | REvent.destroyFence _ => true
  | REvent.resetFence _ => true
  | REvent.resetCommandBuffer _ => true
  | REvent.beginCommandBuffer _ => true
  | REvent.submitCommandBuffer _ => true
  | _ => false

/-- Whether a trace touches any frame-slot fence or command buffer. -/
def touchesFrameSlotObjects (evs : List REvent) : Bool :=
  evs.any frameSlotObjectOp

/-- Whether an event is a semaphore creation. -/
def isCreateSemaphore (e : REvent) : Bool :=
  match e with
  | REvent.createSemaphore _ => true
  | _ => false

/-- Whether an event is a semaphore destruction. -/
def isDestroySemaphore (e : REvent) : Bool :=
  match e with
  | REvent.destroySemaphore _ => true
  | _ => false

/-- Whether a widget trace destroys or creates render-target resources. -/
def touchesWidgetTarget (evs : List WEvent) : Bool :=
  evs.any (fun e =>
    match e with
    | WEvent.destroyRenderTarget _ => true
    | WEvent.createRenderTarget _ => true
    | _ => false)

/-- A concrete post-Init renderer state: 2 frames in flight, 3 swapchain
images, semaphore pools of 4. -/
def sampleState : RendererState :=
  (InitRenderer 2 3).1

/-- A concrete initialized widget state, 100 by 80, render target live. -/
def sampleWidgetState : WidgetState :=
  { width := 100, height := 80, needsResize := false, initialized := true,
    enabled := true, renderTarget := some 1, imguiTexture := some 2, nextHandle := 3 }

/- Helper lemmas. -/

theorem find_mode_self (target : PresentMode) (modes : List PresentMode) :
    modes.find? (fun mode => mode == target) =
      if target ∈ modes then some target else none := by
  induction modes with
  | nil => rfl
  | cons m rest ih =>
    by_cases hm : m = target
    · subst hm
      simp [List.find?_cons]
    · have hbeq : (m == target) = false := by simp [hm]
      have hmem : (target ∈ m :: rest) ↔ target ∈ rest := by
        constructor
        · intro h
          rcases List.mem_cons.mp h with h | h
          · exact absurd h.symm hm
          · exact h
        · intro h
          exact List.mem_cons_of_mem _ h
      simp only [List.find?_cons, hbeq, ih, hmem]

/-- Claim C5: with vsync enabled ChooseSwapPresentMode always returns FIFO; with it
disabled it returns MAILBOX when available, else IMMEDIATE when available,
else FIFO; in particular {FIFO, MAILBOX} with vsync off yields MAILBOX. -/
theorem choose_present_mode_policy (modes : List PresentMode) :
    ChooseSwapPresentMode true modes = PresentMode.fifoKhr ∧
    ChooseSwapPresentMode false modes =
      (if PresentMode.mailboxKhr ∈ modes then PresentMode.mailboxKhr
       else if PresentMode.immediateKhr ∈ modes then PresentMode.immediateKhr
       else PresentMode.fifoKhr) ∧
    ChooseSwapPresentMode false
      [PresentMode.fifoKhr, PresentMode.mailboxKhr] = PresentMode.mailboxKhr := by
  refine ⟨rfl, ?_, by decide⟩
  unfold ChooseSwapPresentMode
  rw [find_mode_self, find_mode_self]
  by_cases h1 : PresentMode.mailboxKhr ∈ modes <;>
    by_cases h2 : PresentMode.immediateKhr ∈ modes <;>
      simp [h1, h2]

/-- Claim C6: the depth format is the first of D32_SFLOAT, D32_SFLOAT_S8_UINT,
D24_UNORM_S8_UINT whose optimal-tiling features contain the
depth-stencil-attachment bit (falling back to the first candidate); a device
supporting only D24_UNORM_S8_UINT gets D24_UNORM_S8_UINT. -/
theorem find_depth_format_probe_order (props : Format → FormatProperties) :
    FindDepthFormat props =
      some (if depthSupported props Format.d32Sfloat = true then Format.d32Sfloat
            else if depthSupported props Format.d32SfloatS8Uint = true then
              Format.d32SfloatS8Uint
            else if depthSupported props Format.d24UnormS8Uint = true then
              Format.d24UnormS8Uint
            else Format.d32Sfloat) ∧
    FindDepthFormat onlyD24Props = some Format.d24UnormS8Uint := by
  refine ⟨?_, by decide⟩
  simp only [FindDepthFormat, FindSupportedFormat, depthSupported, beq_iff_eq]
  by_cases h1 : (props Format.d32Sfloat).optimalTilingFeatures &&&
      depthStencilAttachmentBit = depthStencilAttachmentBit <;>
    by_cases h2 : (props Format.d32SfloatS8Uint).optimalTilingFeatures &&&
        depthStencilAttachmentBit = depthStencilAttachmentBit <;>
      by_cases h3 : (props Format.d24UnormS8Uint).optimalTilingFeatures &&&
          depthStencilAttachmentBit = depthStencilAttachmentBit <;>
        simp [findSupportedLoop, h1, h2, h3]

theorem findMemoryTypeLoop_none (typeFilter properties : Nat) :
    ∀ (l : List Nat) (start : Nat),
      (∀ j, j < l.length →
        ¬(typeFilter &&& (1 <<< (start + j)) ≠ 0 ∧
          l.getD j 0 &&& properties = properties)) →
      findMemoryTypeLoop typeFilter properties l start = none := by
  intro l
  induction l with
  | nil => intro start _; rfl
  | cons flags rest ih =>
    intro start h
    have h0 := h 0 (Nat.succ_pos _)
    rw [findMemoryTypeLoop, if_neg (by simpa using h0)]
    refine ih (start + 1) ?_
    intro j hj
    have := h (j + 1) (Nat.succ_lt_succ hj)
    have harith : start + (j + 1) = start + 1 + j := by omega
    rw [harith] at this
    simpa using this

theorem findMemoryTypeLoop_first (typeFilter properties : Nat) :
    ∀ (l : List Nat) (start j : Nat),
      j < l.length →
      typeFilter &&& (1 <<< (start + j)) ≠ 0 →
      l.getD j 0 &&& properties = properties →
      (∀ k, k < j →
        ¬(typeFilter &&& (1 <<< (start + k)) ≠ 0 ∧
          l.getD k 0 &&& properties = properties)) →
      findMemoryTypeLoop typeFilter properties l start = some (start + j) := by
  intro l
  induction l with
  | nil =>
    intro start j hj
    exact absurd hj (Nat.not_lt_zero _)
  | cons flags rest ih =>
    intro start j hj hbit hflags hmin
    cases j with
    | zero =>
      rw [findMemoryTypeLoop,
        if_pos ⟨by simpa using hbit, by simpa using hflags⟩]
      simp
    | succ j =>
      have h0 := hmin 0 (Nat.succ_pos _)
      rw [findMemoryTypeLoop, if_neg (by simpa using h0)]
      have harith : start + (j + 1) = start + 1 + j := by omega
      rw [harith] at hbit ⊢
      refine ih (start + 1) j (by simpa using hj) hbit (by simpa using hflags) ?_
      intro k hk
      have := hmin (k + 1) (Nat.succ_lt_succ hk)
      have harith2 : start + (k + 1) = start + 1 + k := by omega
      rw [harith2] at this
      simpa using this

/-- Claim C7: FindMemoryType scans memory types in index order and returns the first
index whose bit is set in the type filter and whose property flags contain all
requested flags; when no type matches it takes the logging fallback and
returns index 0. -/
theorem find_memory_type_scan_policy (memoryTypes : List Nat)
    (typeFilter properties : Nat) :
    (∀ j, memoryTypeMatches memoryTypes typeFilter properties j →
      (∀ k, k < j → ¬memoryTypeMatches memoryTypes typeFilter properties k) →
      FindMemoryType memoryTypes typeFilter properties = (j, false)) ∧
    ((∀ j, ¬memoryTypeMatches memoryTypes typeFilter properties j) →
      FindMemoryType memoryTypes typeFilter properties = (0, true)) := by
  constructor
  · intro j hj hmin
    obtain ⟨hjlen, hbit, hflags⟩ := hj
    unfold FindMemoryType
    have := findMemoryTypeLoop_first typeFilter properties memoryTypes 0 j
      hjlen (by simpa using hbit) hflags ?_
    · rw [this]
      simp
    · intro k hk hmatch
      exact hmin k hk ⟨Nat.lt_trans hk hjlen, by simpa using hmatch.1, hmatch.2⟩
  · intro hnone
    unfold FindMemoryType
    have := findMemoryTypeLoop_none typeFilter properties memoryTypes 0 ?_
    · rw [this]
    · intro j hjlen hmatch
      exact hnone j ⟨hjlen, by simpa using hmatch.1, hmatch.2⟩

/-- Claim C7 witness: with per-type flags [1, 6, 2], filter 6 and requested flags 2,
index 1 is the first match and is returned without the error fallback. -/
theorem find_memory_type_scan_policy_witness :
    memoryTypeMatches [1, 6, 2] 6 2 1 ∧ FindMemoryType [1, 6, 2] 6 2 = (1, false) := by
  refine ⟨by decide, ?_⟩
  refine (find_memory_type_scan_policy [1, 6, 2] 6 2).1 1 (by decide) ?_
  intro k hk
  interval_cases k
  decide

theorem createSemaphorePools_ia_length :
    ∀ (n next : Nat), (createSemaphorePools next n).1.length = n := by
  intro n
  induction n with
  | zero => intro next; rfl
  | succ n ih => intro next; simp [createSemaphorePools, ih]

theorem createSemaphorePools_rf_length :
    ∀ (n next : Nat), (createSemaphorePools next n).2.1.length = n := by
  intro n
  induction n with
  | zero => intro next; rfl
  | succ n ih => intro next; simp [createSemaphorePools, ih]

theorem createSemaphorePools_no_destroy :
    ∀ (n next : Nat),
      (createSemaphorePools next n).2.2.2.any isDestroySemaphore = false := by
  intro n
  induction n with
  | zero => intro next; rfl
  | succ n ih => intro next; simp [createSemaphorePools, isDestroySemaphore, ih]

theorem createSemaphorePools_no_slot_ops :
    ∀ (n next : Nat),
      (createSemaphorePools next n).2.2.2.any frameSlotObjectOp = false := by
  intro n
  induction n with
  | zero => intro next; rfl
  | succ n ih => intro next; simp [createSemaphorePools, frameSlotObjectOp, ih]

theorem map_destroySemaphore_no_slot_ops (l : List Nat) :
    (l.map REvent.destroySemaphore).any frameSlotObjectOp = false := by
  induction l with
  | nil => rfl
  | cons x rest ih => simp [frameSlotObjectOp, ih]

theorem map_destroySemaphore_no_create (l : List Nat) :
    (l.map REvent.destroySemaphore).any isCreateSemaphore = false := by
  induction l with
  | nil => rfl
  | cons x rest ih => simp [isCreateSemaphore, ih]

theorem recreate_frames_eq (s : RendererState) (n : Nat) :
    (RecreateSwapchain s n).1.frames = s.frames := rfl

theorem recreate_currentFrame_eq (s : RendererState) (n : Nat) :
    (RecreateSwapchain s n).1.currentFrame = s.currentFrame := rfl

theorem recreate_maxFrames_eq (s : RendererState) (n : Nat) :
    (RecreateSwapchain s n).1.maxFramesInFlight = s.maxFramesInFlight := rfl

theorem recreate_trace_eq (s : RendererState) (n : Nat) :
    (RecreateSwapchain s n).2 =
      REvent.destroySwapchainBundle ::
        (s.imageAvailableSemaphores.map REvent.destroySemaphore ++
          s.renderFinishedSemaphores.map REvent.destroySemaphore) ++
        REvent.createSwapchainBundle ::
          (createSemaphorePools
            ((CreateSwapchainResources s n).1.nextHandle) (n + 1)).2.2.2 := by
  simp [RecreateSwapchain, CleanupSwapchain, CreateSwapchainResources, destroyPoolEvents]

theorem recreate_no_slot_ops (s : RendererState) (n : Nat) :
    touchesFrameSlotObjects (RecreateSwapchain s n).2 = false := by
  rw [touchesFrameSlotObjects, recreate_trace_eq]
  simp [frameSlotObjectOp, map_destroySemaphore_no_slot_ops,
    createSemaphorePools_no_slot_ops]

/-- Claim C4: RecreateSwapchain leaves every frame slot untouched — the slot list is
unchanged and the trace holds no fence or command-buffer operation — while the
swapchain-dependent bundle is destroyed and rebuilt with the new image count. -/
theorem recreate_swapchain_preserves_frame_slots (s : RendererState) (n : Nat) :
    (RecreateSwapchain s n).1.frames = s.frames ∧
    touchesFrameSlotObjects (RecreateSwapchain s n).2 = false ∧
    REvent.destroySwapchainBundle ∈ (RecreateSwapchain s n).2 ∧
    REvent.createSwapchainBundle ∈ (RecreateSwapchain s n).2 ∧
    (RecreateSwapchain s n).1.swapchainImageViews.length = n ∧
    (RecreateSwapchain s n).1.framebuffers.length = n := by
  refine ⟨rfl, recreate_no_slot_ops s n, ?_, ?_, ?_, ?_⟩
  · rw [recreate_trace_eq]
    simp
  · rw [recreate_trace_eq]
    simp
  · simp [RecreateSwapchain, CreateSwapchainResources]
  · simp [RecreateSwapchain, CreateSwapchainResources]

/-- Claim C2: after CreateSyncObjects at Init and after every RecreateSwapchain both
semaphore pools have swapchainImageCount + 1 elements and the rotating index
is 0; a recreate destroys every old pool semaphore, and in its trace all pool
destructions precede all pool creations. -/
theorem semaphore_pools_sized_and_reset (s : RendererState) (m imageCount n : Nat) :
    (InitRenderer m imageCount).1.imageAvailableSemaphores.length =
      (InitRenderer m imageCount).1.swapchainImageCount + 1 ∧
    (InitRenderer m imageCount).1.renderFinishedSemaphores.length =
      (InitRenderer m imageCount).1.swapchainImageCount + 1 ∧
    (InitRenderer m imageCount).1.currentSemaphoreIndex = 0 ∧
    (RecreateSwapchain s n).1.imageAvailableSemaphores.length =
      (RecreateSwapchain s n).1.swapchainImageCount + 1 ∧
    (RecreateSwapchain s n).1.renderFinishedSemaphores.length =
      (RecreateSwapchain s n).1.swapchainImageCount + 1 ∧
    (RecreateSwapchain s n).1.currentSemaphoreIndex = 0 ∧
    s.imageAvailableSemaphores.all
      (fun h => (RecreateSwapchain s n).2.contains (REvent.destroySemaphore h)) = true ∧
    s.renderFinishedSemaphores.all
      (fun h => (RecreateSwapchain s n).2.contains (REvent.destroySemaphore h)) = true ∧
    ∃ l1 l2, (RecreateSwapchain s n).2 = l1 ++ l2 ∧
      l1.any isCreateSemaphore = false ∧ l2.any isDestroySemaphore = false := by
  refine ⟨?_, ?_, rfl, ?_, ?_, rfl, ?_, ?_, ?_⟩
  · simp [InitRenderer, CreateSyncObjects, CreateCommandBuffers,
      CreateSwapchainResources, initialRendererState, createSemaphorePools_ia_length]
  · simp [InitRenderer, CreateSyncObjects, CreateCommandBuffers,
      CreateSwapchainResources, initialRendererState, createSemaphorePools_rf_length]
  · simp [RecreateSwapchain, CreateSwapchainResources, CleanupSwapchain,
      createSemaphorePools_ia_length]
  · simp [RecreateSwapchain, CreateSwapchainResources, CleanupSwapchain,
      createSemaphorePools_rf_length]
  · rw [List.all_eq_true]
    intro x hx
    have hm : REvent.destroySemaphore x ∈ (RecreateSwapchain s n).2 := by
      rw [recreate_trace_eq]
      refine List.mem_append_left _ (List.mem_cons_of_mem _ ?_)
      exact List.mem_append_left _ (List.mem_map_of_mem _ hx)
    simp [hm]
  · rw [List.all_eq_true]
    intro x hx
    have hm : REvent.destroySemaphore x ∈ (RecreateSwapchain s n).2 := by
      rw [recreate_trace_eq]
      refine List.mem_append_left _ (List.mem_cons_of_mem _ ?_)
      exact List.mem_append_right _ (List.mem_map_of_mem _ hx)
    simp [hm]
  · refine ⟨REvent.destroySwapchainBundle ::
      (s.imageAvailableSemaphores.map REvent.destroySemaphore ++
        s.renderFinishedSemaphores.map REvent.destroySemaphore),
      REvent.createSwapchainBundle ::
        (createSemaphorePools
          ((CreateSwapchainResources s n).1.nextHandle) (n + 1)).2.2.2,
      ?_, ?_, ?_⟩
    · rw [recreate_trace_eq]
    · simp [isCreateSemaphore, map_destroySemaphore_no_create]
    · simp [isDestroySemaphore, createSemaphorePools_no_destroy]

theorem recreate_framebuffers_length (s : RendererState) (n : Nat) :
    (RecreateSwapchain s n).1.framebuffers.length = n := by
  simp [RecreateSwapchain, CreateSwapchainResources]

theorem recreate_imageViews_length (s : RendererState) (n : Nat) :
    (RecreateSwapchain s n).1.swapchainImageViews.length = n := by
  simp [RecreateSwapchain, CreateSwapchainResources]

/-- Claim C1 counterexample: on the early-return path where vkEndCommandBuffer
fails, EndFrame does not advance the frame index: from sampleState
(currentFrame 0, maxFramesInFlight 2) it stays 0 instead of becoming 1. -/
theorem end_frame_unconditional_advance_counterexample :
    (EndFrame sampleState false true VkResult.success 3).1.currentFrame = 0 ∧
    (sampleState.currentFrame + 1) % sampleState.maxFramesInFlight = 1 := by
  decide

/-- Claim C1 amended: on every EndFrame call where command-buffer recording ends
successfully and the queue submit succeeds, the frame index advances to
(currentFrame + 1) mod maxFramesInFlight — on the present-success path, on
OUT_OF_DATE or SUBOPTIMAL presents, on other present errors, and when a
resize was flagged (full recreate) alike. -/
theorem end_frame_advances_after_submit (s : RendererState)
    (presentResult : VkResult) (recreateImageCount : Nat) :
    (EndFrame s true true presentResult recreateImageCount).1.currentFrame =
      (s.currentFrame + 1) % s.maxFramesInFlight := by
  unfold EndFrame
  by_cases hc : presentResult = VkResult.errorOutOfDateKhr ∨
      presentResult = VkResult.suboptimalKhr ∨ s.framebufferResized = true <;>
    simp [hc, recreate_currentFrame_eq, recreate_maxFrames_eq]

/-- Claim C3: an OUT_OF_DATE acquire makes BeginFrame recreate the swapchain (the
bundle is destroyed and the new per-image resources match the newly negotiated
image count) and return false; a SUCCESS or SUBOPTIMAL acquire proceeds
without any recreate — its whole trace is fence wait, acquire, fence reset,
command-buffer reset and begin — and BeginFrame returns true when the
command buffer begins successfully. -/
theorem begin_frame_acquire_policy (s : RendererState)
    (acquiredImage : Nat) (beginSucceeds : Bool) (n : Nat) :
    (BeginFrame s VkResult.errorOutOfDateKhr acquiredImage beginSucceeds n).1 = false ∧
    REvent.destroySwapchainBundle ∈
      (BeginFrame s VkResult.errorOutOfDateKhr acquiredImage beginSucceeds n).2.2 ∧
    (BeginFrame s VkResult.errorOutOfDateKhr acquiredImage
      beginSucceeds n).2.1.framebuffers.length = n ∧
    (BeginFrame s VkResult.errorOutOfDateKhr acquiredImage
      beginSucceeds n).2.1.swapchainImageViews.length = n ∧
    (BeginFrame s VkResult.success acquiredImage true n).1 = true ∧
    (BeginFrame s VkResult.suboptimalKhr acquiredImage true n).1 = true ∧
    (BeginFrame s VkResult.success acquiredImage true n).2.2 =
      [REvent.waitFence (s.frames.getD s.currentFrame default).inFlightFence,
       REvent.acquireImage (s.imageAvailableSemaphores.getD s.currentSemaphoreIndex 0),
       REvent.resetFence (s.frames.getD s.currentFrame default).inFlightFence,
       REvent.resetCommandBuffer (s.frames.getD s.currentFrame default).commandBuffer,
       REvent.beginCommandBuffer (s.frames.getD s.currentFrame default).commandBuffer] ∧
    (BeginFrame s VkResult.suboptimalKhr acquiredImage true n).2.2 =
      [REvent.waitFence (s.frames.getD s.currentFrame default).inFlightFence,
       REvent.acquireImage (s.imageAvailableSemaphores.getD s.currentSemaphoreIndex 0),
       REvent.resetFence (s.frames.getD s.currentFrame default).inFlightFence,
       REvent.resetCommandBuffer (s.frames.getD s.currentFrame default).commandBuffer,
       REvent.beginCommandBuffer (s.frames.getD s.currentFrame default).commandBuffer] := by
  refine ⟨rfl, ?_, ?_, ?_, rfl, rfl, rfl, rfl⟩
  · show REvent.destroySwapchainBundle ∈
      [REvent.waitFence _, REvent.acquireImage _] ++ (RecreateSwapchain _ n).2
    refine List.mem_append_right _ ?_
    rw [recreate_trace_eq]
    simp
  · exact recreate_framebuffers_length _ n
  · exact recreate_imageViews_length _ n

/-- Claim C10: when acquire reports OUT_OF_DATE, BeginFrame aborts leaving the
current frame slot intact for retry: the slot's fence stays signaled (its
reset happens only after a successful acquire), fence and command buffer are
the same handles, no fence-reset or command-buffer operation is performed,
and the frame index is unchanged — so the immediately following BeginFrame on
the same slot waits on a signaled fence and cannot deadlock. -/
theorem begin_frame_out_of_date_slot_intact (s : RendererState)
    (acquiredImage : Nat) (beginSucceeds : Bool) (n : Nat)
    (wf : s.currentFrame < s.frames.length) :
    (BeginFrame s VkResult.errorOutOfDateKhr acquiredImage beginSucceeds n).1 = false ∧
    (BeginFrame s VkResult.errorOutOfDateKhr acquiredImage
      beginSucceeds n).2.1.currentFrame = s.currentFrame ∧
    ((BeginFrame s VkResult.errorOutOfDateKhr acquiredImage
      beginSucceeds n).2.1.frames.getD s.currentFrame default).fenceSignaled = true ∧
    ((BeginFrame s VkResult.errorOutOfDateKhr acquiredImage
      beginSucceeds n).2.1.frames.getD s.currentFrame default).inFlightFence =
      (s.frames.getD s.currentFrame default).inFlightFence ∧
    ((BeginFrame s VkResult.errorOutOfDateKhr acquiredImage
      beginSucceeds n).2.1.frames.getD s.currentFrame default).commandBuffer =
      (s.frames.getD s.currentFrame default).commandBuffer ∧
    touchesFrameSlotObjects
      (BeginFrame s VkResult.errorOutOfDateKhr acquiredImage beginSucceeds n).2.2 =
      false := by
  have hframes : (BeginFrame s VkResult.errorOutOfDateKhr acquiredImage
      beginSucceeds n).2.1.frames =
      s.frames.set s.currentFrame
        { s.frames.getD s.currentFrame default with fenceSignaled := true } := rfl
  have hget : (BeginFrame s VkResult.errorOutOfDateKhr acquiredImage
      beginSucceeds n).2.1.frames.getD s.currentFrame default =
      { s.frames.getD s.currentFrame default with fenceSignaled := true } := by
    rw [hframes, List.getD_eq_getElem _ _ (by simpa using wf)]
    exact List.getElem_set_self _
  refine ⟨rfl, rfl, ?_, ?_, ?_, ?_⟩
  · rw [hget]
  · rw [hget]
  · rw [hget]
  · show touchesFrameSlotObjects
      ([REvent.waitFence _, REvent.acquireImage _] ++ (RecreateSwapchain _ n).2) = false
    rw [touchesFrameSlotObjects, List.any_append]
    rw [show (RecreateSwapchain ({ s with
      frames := s.frames.set s.currentFrame
        { s.frames.getD s.currentFrame default with
            fenceSignaled := true } }) n).2.any frameSlotObjectOp = false from
      recreate_no_slot_ops _ n]
    simp [frameSlotObjectOp]

/-- Claim C10 witness: from the concrete post-Init state, the aborted BeginFrame
leaves the slot's fence signaled and performs no slot operation. -/
theorem begin_frame_out_of_date_slot_intact_witness :
    sampleState.currentFrame < sampleState.frames.length ∧
    ((BeginFrame sampleState VkResult.errorOutOfDateKhr 0 true
      4).2.1.frames.getD sampleState.currentFrame default).fenceSignaled = true :=
  ⟨by decide,
   (begin_frame_out_of_date_slot_intact sampleState 0 true 4 (by decide)).2.2.1⟩

/-- Claim C8: with a successful BeginFrame, GUI mode runs the UI phase and never the
direct-render hook, Game mode runs the hook and never the UI phase, and
Hybrid runs both, with the direct-render hook recorded into the frame's
command buffer before the UI draw-call recording (the ImGui End call). -/
theorem main_loop_mode_phases (enableDockspace : Bool) :
    ((MainLoopRenderPhase AppMode.GUI enableDockspace true).contains
        AppEvent.onRenderHook = false ∧
      AppEvent.imguiEnd ∈ MainLoopRenderPhase AppMode.GUI enableDockspace true) ∧
    (AppEvent.onRenderHook ∈ MainLoopRenderPhase AppMode.Game enableDockspace true ∧
      (MainLoopRenderPhase AppMode.Game enableDockspace true).contains
        AppEvent.imguiBegin = false ∧
      (MainLoopRenderPhase AppMode.Game enableDockspace true).contains
        AppEvent.imguiEnd = false) ∧
    (AppEvent.onRenderHook ∈ MainLoopRenderPhase AppMode.Hybrid enableDockspace true ∧
      AppEvent.imguiEnd ∈ MainLoopRenderPhase AppMode.Hybrid enableDockspace true ∧
      (MainLoopRenderPhase AppMode.Hybrid enableDockspace true).indexOf
          AppEvent.onRenderHook <
        (MainLoopRenderPhase AppMode.Hybrid enableDockspace true).indexOf
          AppEvent.imguiEnd) := by
  cases enableDockspace <;> decide

/-- Claim C9: a RenderWidget size change is applied lazily. SetSize — also when
reached from RenderImage detecting a changed content region — only records
the new extent and raises the needs-resize flag, leaving the render target
untouched; RenderImage does not draw the image on the detecting frame; the
actual recreation happens at the start of the next Render call, before the
frame hooks, and clears the flag. -/
theorem widget_resize_is_lazy (s : WidgetState) (w h cw ch : Nat) (b : Bool)
    (htex : s.imguiTexture ≠ none) (hcw : 0 < cw) (hch : 0 < ch)
    (hchange : max cw 32 ≠ s.width ∨ max ch 32 ≠ s.height) :
    (WidgetSetSize s w h).1.renderTarget = s.renderTarget ∧
    (WidgetSetSize s w h).1.imguiTexture = s.imguiTexture ∧
    touchesWidgetTarget (WidgetSetSize s w h).2 = false ∧
    (WidgetRenderImage s (cw, ch)).1.needsResize = true ∧
    (WidgetRenderImage s (cw, ch)).1.renderTarget = s.renderTarget ∧
    (WidgetRenderImage s (cw, ch)).2.contains WEvent.drawImage = false ∧
    touchesWidgetTarget (WidgetRenderImage s (cw, ch)).2 = false ∧
    (WidgetRender (flaggedWidget s) b).1.needsResize = false ∧
    (WidgetRender (flaggedWidget s) b).1.renderTarget = some s.nextHandle ∧
    (WidgetRender (flaggedWidget s) b).2 =
      (CleanupSizeDependentResources (flaggedWidget s)).2 ++
      WEvent.createRenderTarget s.nextHandle :: WEvent.onRenderUpdate ::
        (if b then [WEvent.onRenderFrame, WEvent.submitAndWait] else []) := by
  have hsets : WidgetRenderImage s (cw, ch) =
      WidgetSetSize s (max cw 32) (max ch 32) := by
    unfold WidgetRenderImage
    rw [if_neg htex, if_pos ⟨hcw, hch⟩, if_pos hchange]
  have hset : WidgetSetSize s (max cw 32) (max ch 32) =
      ({ s with width := max cw 32, height := max ch 32, needsResize := true },
       [WEvent.onRenderResize (max cw 32) (max ch 32)]) := by
    unfold WidgetSetSize
    rw [if_pos (Or.imp Ne.symm Ne.symm hchange)]
  refine ⟨?_, ?_, ?_, ?_, ?_, ?_, ?_, ?_, ?_, ?_⟩
  · unfold WidgetSetSize
    split_ifs <;> rfl
  · unfold WidgetSetSize
    split_ifs <;> rfl
  · unfold WidgetSetSize
    split_ifs <;> rfl
  · rw [hsets, hset]
  · rw [hsets, hset]
  · rw [hsets, hset]
    rfl
  · rw [hsets, hset]
    rfl
  · rcases hrt : s.renderTarget with _ | rt <;>
      simp [WidgetRender, flaggedWidget, RecreateRenderTarget,
        CleanupSizeDependentResources, CreateSizeDependentResources, hrt]
  · rcases hrt : s.renderTarget with _ | rt <;>
      simp [WidgetRender, flaggedWidget, RecreateRenderTarget,
        CleanupSizeDependentResources, CreateSizeDependentResources, hrt]
  · rcases hrt : s.renderTarget with _ | rt <;>
      cases b <;>
        simp [WidgetRender, flaggedWidget, RecreateRenderTarget,
          CleanupSizeDependentResources, CreateSizeDependentResources, hrt]

/-- Claim C9 witness: from the concrete 100 by 80 widget, a 200 by 150 content
region flags the resize without drawing the image. -/
theorem widget_resize_is_lazy_witness :
    (WidgetRenderImage sampleWidgetState (200, 150)).1.needsResize = true ∧
    (WidgetRenderImage sampleWidgetState (200, 150)).2.contains
      WEvent.drawImage = false := by
  have hmain := widget_resize_is_lazy sampleWidgetState 0 0 200 150 true
    (by decide) (by decide) (by decide) (by decide)
  exact ⟨hmain.2.2.2.1, hmain.2.2.2.2.2.1⟩

end tvk
